import Mathlib

/-!
Verification of the xmonitor asynchronous task-execution engine
(`src/xmonitor/async/taskflow_executor.py` and the import flow it runs)
against its natural-language specification.

The embedding models Python exceptions as an `Exc` inductive, the mutable
task repository plus the observable collaborator calls as an explicit state
(`St`), and each external collaborator outcome (URI validation, stevedore
driver construction, pool construction, taskflow engine run) as a field of an
environment record `Env`.  Functions return `Except Exc α × St`: the state
survives a raised exception, as in Python.
-/

namespace XMonitor

/-- Task status, as in the spec's Task data model. -/
inductive Status
  | pending
  | processing
  | success
  | failure
deriving DecidableEq, Repr

/-- The persisted Task Record. -/
structure Task where
  task_id : String
  type : String
  status : Status
  message : String
deriving DecidableEq, Repr

/-- `task.fail(message)`: terminal failure transition. -/
def Task.fail (t : Task) (msg : String) : Task :=
  { t with status := Status.failure, message := msg }

/-- `task.begin_processing()`: pending → processing transition performed by
the executor immediately before dispatch. -/
def Task.begin_processing (t : Task) : Task :=
  { t with status := Status.processing }

/-- Python exceptions relevant to the engine.  `genericError` stands for any
exception class not otherwise distinguished by the code under analysis. -/
inductive Exc
  | importTaskError (msg : String)
  | notImplementedError
  | urlError (reason : String)
  | badStoreUri (msg : String)
  | invalid (msg : String)
  | runtimeError
  | notAuthenticated
  | notFound
  | genericError (name : String)
deriving DecidableEq, Repr

/-- Whether an exception is the engine's `ImportTaskError`. -/
def Exc.isImportTaskError : Exc → Bool
  | Exc.importTaskError _ => true
  | _ => false

/-- `encodeutils.exception_to_unicode(exc)`: the human-readable detail of an
exception, used only in log lines. -/
def excDetail : Exc → String
  | Exc.importTaskError m => m
  | Exc.notImplementedError => "NotImplementedError"
  | Exc.urlError r => r
  | Exc.badStoreUri m => m
  | Exc.invalid m => m
  | Exc.runtimeError => "RuntimeError"
  | Exc.notAuthenticated => "NotAuthenticated"
  | Exc.notFound => "NotFound"
  | Exc.genericError n => n

/-- A worker pool, tagged with its backing and its `max_workers` bound. -/
inductive Pool
  | green (max_workers : Nat)
  | thread (max_workers : Nat)
deriving DecidableEq, Repr

/-- Observable collaborator calls made by the executor. -/
inductive Event
  | poolAcquire (p : Pool)
  | engineRun (task_id : String)
  | poolShutdown
  | saveTask (t : Task)
  | logError (detail : String)
deriving DecidableEq, Repr

/-- Executor state: the task repository (association list, newest entry
first, so a save is last-write-wins for lookup) and the trace of observable
collaborator calls. -/
structure St where
  repo : List (String × Task)
  events : List Event
deriving DecidableEq, Repr

def St.log (st : St) (e : Event) : St :=
  { st with events := st.events ++ [e] }

/-- `task_repo.save(task)`: persist the record (keyed by its own id). -/
def St.saveTask (st : St) (t : Task) : St :=
  { st with
      repo := (t.task_id, t) :: st.repo,
      events := st.events ++ [Event.saveTask t] }

/-- Outcomes of the external collaborators for one `begin_processing` call,
together with the two configuration values read from
`CONF.taskflow_executor`.  A `some e` outcome means that collaborator call
raises `e`; `none` means it succeeds. -/
structure Env where
  engine_mode : String
  max_workers : Nat
  unpackOutcome : Option Exc
  validateOutcome : Except Exc String
  driverOutcome : Option Exc
  greenPoolOutcome : Option Exc
  threadPoolOutcome : Option Exc
  engineRunOutcome : Option Exc
deriving Repr

/-- The body of the `try` block of `TaskExecutor._get_flow`:
`unpack_task_input`, `validate_location_uri`, then stevedore
`DriverManager(...)`.  Returns the first exception raised, if any. -/
def getFlowBody (env : Env) : Option Exc :=
  match env.unpackOutcome with
  | some e => some e
  | none =>
    match env.validateOutcome with
    | Except.error e => some e
    | Except.ok _ =>
      match env.driverOutcome with
      | some e => some e
      | none => none

/-- `TaskExecutor._get_flow`: the `try` body with its `except` clauses.
`urllib.error.URLError` becomes `ImportTaskError(exc.reason)`;
`BadStoreUri` and `Invalid` become `ImportTaskError(exc.msg)`;
`RuntimeError` becomes `NotImplementedError()`; anything else propagates.
`none` means the flow was obtained. -/
def getFlowResult (env : Env) : Option Exc :=
  match getFlowBody env with
  | none => none
  | some (Exc.urlError r) => some (Exc.importTaskError r)
  | some (Exc.badStoreUri m) => some (Exc.importTaskError m)
  | some (Exc.invalid m) => some (Exc.importTaskError m)
  | some Exc.runtimeError => some Exc.notImplementedError
  | some e => some e

/-- `TaskExecutor._fetch_an_executor`: `None` unless the engine mode is
`parallel`; otherwise a `GreenThreadPoolExecutor(max_workers)`, falling back
to `ThreadPoolExecutor(max_workers)` when the green constructor raises
`RuntimeError`.  Any other constructor exception propagates. -/
def fetchAnExecutor (env : Env) : Except Exc (Option Pool) :=
  if env.engine_mode ≠ "parallel" then
    Except.ok none
  else
    match env.greenPoolOutcome with
    | none => Except.ok (some (Pool.green env.max_workers))
    | some Exc.runtimeError =>
      match env.threadPoolOutcome with
      | none => Except.ok (some (Pool.thread env.max_workers))
      | some e => Except.error e
    | some e => Except.error e

/-- The generic operator-facing failure message of `TaskExecutor._run`. -/
def internalErrorMsg : String := "Task failed due to Internal Error"

/-- `TaskExecutor._run(task_id, task_type)`:
`script_utils.get_task` (NotFound swallowed → silent return), `_get_flow`,
`_fetch_an_executor`, then `engines.load(...)` + `engine.run()` inside a
`try` whose `except Exception` logs, marks the task failure with the generic
message, saves, and re-raises; the `finally` shuts the pool down when one
was acquired. -/
def run_ (env : Env) (task_id : String) (st : St) : Except Exc Unit × St :=
  match st.repo.lookup task_id with
  | none => (Except.ok (), st)
  | some task =>
    match getFlowResult env with
    | some e => (Except.error e, st)
    | none =>
      match fetchAnExecutor env with
      | Except.error e => (Except.error e, st)
      | Except.ok executor =>
        let st1 :=
          match executor with
          | some p => st.log (Event.poolAcquire p)
          | none => st
        let resSt :=
          match env.engineRunOutcome with
          | none => (Except.ok (), st1.log (Event.engineRun task_id))
          | some e =>
            let st2 := (st1.log (Event.engineRun task_id)).log
              (Event.logError (excDetail e))
            let st3 := st2.saveTask (task.fail internalErrorMsg)
            (Except.error e, st3)
        let st4 :=
          match executor with
          | some _ => resSt.snd.log Event.poolShutdown
          | none => resSt.snd
        (resSt.fst, st4)

/-- Modelled from the spec: the base class `xmonitor.async.TaskExecutor`
(module `xmonitor/async/__init__.py`) is not under `src/`; per spec §4.1 and
§4.5 its `begin_processing(task_id)` loads the Task Record (an absent id is
a silent no-op return), sets `processing` immediately before dispatch,
persists it, and dispatches to `_run`; it installs no handler of its own,
so exceptions from `_run` propagate to the subclass wrapper. -/
def base_begin_processing (env : Env) (task_id : String) (st : St) :
    Except Exc Unit × St :=
  match st.repo.lookup task_id with
  | none => (Except.ok (), st)
  | some task =>
    let t := task.begin_processing
    let st1 := st.saveTask t
    run_ env task_id st1

/-- `TaskExecutor.begin_processing` (taskflow subclass): runs the base
implementation, and on `ImportTaskError` logs the message, re-reads the
task with `task_repo.get` (which raises NotFound on an absent id), marks it
failed with the validation message, and saves it.  Every other exception
propagates to the caller. -/
def begin_processing (env : Env) (task_id : String) (st : St) :
    Except Exc Unit × St :=
  match base_begin_processing env task_id st with
  | (Except.error (Exc.importTaskError msg), st1) =>
    let st2 := st1.log (Event.logError msg)
    match st2.repo.lookup task_id with
    | none => (Except.error Exc.notFound, st2)
    | some task =>
      (Except.ok (), st2.saveTask (task.fail msg))
  | other => other

/-- Observable collaborator calls made by one import-flow run. -/
inductive FlowEvent
  | createImage (id : String)
  | saveImage (id : String) (status : String)
  | transfer (uri : String)
  | reloadImage (id : String)
  | deleteLocation (id : String) (loc : String)
deriving DecidableEq, Repr

/-- Collaborator outcomes for one import-flow run: the id the image factory
assigns, the validated source uri, the storage locations the transfer writes
into the in-memory image record, whether the byte transfer raises, and
whether the post-transfer reload/save of the image raises (stale
authorization). -/
structure ImportEnv where
  image_id : String
  uri : String
  locations : List String
  transferOutcome : Option Exc
  reloadOutcome : Option Exc
deriving Repr

/-- Modelled from the spec:
`xmonitor.common.scripts.image_import.main.import_image` is not under
`src/` (only its unit tests are).  Per spec §4.4 the flow: (2) creates the
provisional image record via the factory, saves it, and transitions it to
the interim "saving" status, saved through the image repository strictly
before any bytes move; (3) transfers bytes from the validated source,
transport errors propagating with no cleanup; (4) if reloading/saving the
image afterwards raises an authorization failure, deletes every storage
location already written — taken from the original in-memory record, not
the stale reload — and only then re-raises; (5) on success leaves the image
in its post-transfer "active" status and returns the image id. -/
def import_image (env : ImportEnv) : Except Exc String × List FlowEvent :=
  let ev0 := [FlowEvent.createImage env.image_id,
              FlowEvent.saveImage env.image_id "saving",
              FlowEvent.transfer env.uri]
  match env.transferOutcome with
  | some e => (Except.error e, ev0)
  | none =>
    match env.reloadOutcome with
    | none =>
      (Except.ok env.image_id,
       ev0 ++ [FlowEvent.reloadImage env.image_id,
               FlowEvent.saveImage env.image_id "active"])
    | some Exc.notAuthenticated =>
      (Except.error Exc.notAuthenticated,
       ev0 ++ [FlowEvent.reloadImage env.image_id]
           ++ env.locations.map (FlowEvent.deleteLocation env.image_id))
    | some e =>
      (Except.error e, ev0 ++ [FlowEvent.reloadImage env.image_id])

/-! Concrete fixtures used by counterexamples and witnesses. -/

/-- A pending import task, stored in the repository under id `t1`. -/
def task1 : Task :=
  { task_id := "t1", type := "import", status := Status.pending, message := "" }

/-- An empty repository and trace. -/
def st0 : St := { repo := [], events := [] }

/-- A repository holding exactly `task1`, with an empty trace. -/
def st1 : St := { repo := [("t1", task1)], events := [] }

/-- Serial-mode environment in which every collaborator succeeds. -/
def envOkSerial : Env :=
  { engine_mode := "serial", max_workers := 1,
    unpackOutcome := none,
    validateOutcome := Except.ok "http://example.com/image",
    driverOutcome := none, greenPoolOutcome := none,
    threadPoolOutcome := none, engineRunOutcome := none }

/-- The running flow raises an arbitrary unexpected exception. -/
def envFlowBoom : Env :=
  { envOkSerial with engineRunOutcome := some (Exc.genericError "boom") }

/-- Stevedore driver construction raises `RuntimeError`
(e.g. the task type is unregistered). -/
def envDriverBoom : Env :=
  { envOkSerial with driverOutcome := some Exc.runtimeError }

/-- URI validation raises `urllib.error.URLError("bad uri")`. -/
def envBadUri : Env :=
  { envOkSerial with validateOutcome := Except.error (Exc.urlError "bad uri") }

/-- The running flow raises the stale-authorization exception. -/
def envAuthBoom : Env :=
  { envOkSerial with engineRunOutcome := some Exc.notAuthenticated }

/-- Parallel-mode environment in which every collaborator succeeds. -/
def envParallel : Env :=
  { envOkSerial with engine_mode := "parallel", max_workers := 10 }

/-- Parallel mode with the green pool constructor raising `RuntimeError`. -/
def envParallelFallback : Env :=
  { envParallel with greenPoolOutcome := some Exc.runtimeError }

/-- Parallel mode with the green pool constructor raising an exception that
is not a `RuntimeError`. -/
def envParallelBadPool : Env :=
  { envParallel with
      greenPoolOutcome := some (Exc.genericError "pool construction failed") }

/-- An import run that transfers successfully, has written one storage
location, and then hits stale authorization on the reload. -/
def fenvAuthExpired : ImportEnv :=
  { image_id := "img1", uri := "http://example.com/image",
    locations := ["location"], transferOutcome := none,
    reloadOutcome := some Exc.notAuthenticated }

/-! Helper lemmas shared by several claim proofs. -/

theorem lookup_cons_isSome (k a : String) (t : Task) (l : List (String × Task))
    (h : (l.lookup k).isSome) : (((a, t) :: l).lookup k).isSome := by
  cases hb : k == a <;> simp [List.lookup, hb, h]

theorem run_repo_lookup_isSome (env : Env) (tid k : String) (st : St)
    (h : (st.repo.lookup k).isSome) :
    (((run_ env tid st).snd).repo.lookup k).isSome := by
  unfold run_
  cases hfind : st.repo.lookup tid with
  | none => simpa using h
  | some task =>
    cases hflow : getFlowResult env with
    | some e => simpa using h
    | none =>
      cases hpool : fetchAnExecutor env with
      | error e => simpa using h
      | ok executor =>
        cases executor with
        | none =>
          cases hrun : env.engineRunOutcome with
          | none => simpa [St.log] using h
          | some e =>
            simpa [St.log, St.saveTask] using
              lookup_cons_isSome k (task.fail internalErrorMsg).task_id
                (task.fail internalErrorMsg) st.repo h
        | some p =>
          cases hrun : env.engineRunOutcome with
          | none => simpa [St.log] using h
          | some e =>
            simpa [St.log, St.saveTask] using
              lookup_cons_isSome k (task.fail internalErrorMsg).task_id
                (task.fail internalErrorMsg) st.repo h

theorem base_importTaskError_lookup_isSome (env : Env) (tid : String) (st : St)
    (msg : String) (st1 : St)
    (hb : base_begin_processing env tid st =
      (Except.error (Exc.importTaskError msg), st1)) :
    (st1.repo.lookup tid).isSome := by
  unfold base_begin_processing at hb
  cases hfind : st.repo.lookup tid with
  | none => simp [hfind] at hb
  | some task =>
    rw [hfind] at hb
    dsimp only at hb
    have h1 : ((st.saveTask task.begin_processing).repo.lookup tid).isSome := by
      simpa [St.saveTask] using
        lookup_cons_isSome tid task.begin_processing.task_id
          task.begin_processing st.repo (by simp [hfind])
    have h2 := run_repo_lookup_isSome env tid tid
      (st.saveTask task.begin_processing) h1
    rw [hb] at h2
    exact h2

/-- C5: for every task id absent from the task repository,
`begin_processing` is a no-op: it returns without raising, never creates a
Task Record, and performs no driver resolution, pool acquisition, or flow
execution — the repository and the collaborator trace are left exactly as
they were. -/
theorem begin_processing_absent_id_noop (env : Env) (task_id : String)
    (st : St) (h : st.repo.lookup task_id = none) :
    begin_processing env task_id st = (Except.ok (), st) := by
  simp [begin_processing, base_begin_processing, h]

/-- Witness for C5 at a concrete absent id. -/
theorem begin_processing_absent_id_noop_witness :
    begin_processing envOkSerial "missing" st0 = (Except.ok (), st0) :=
  begin_processing_absent_id_noop envOkSerial "missing" st0 rfl

/-- C2: for every task whose input fails validation before the flow starts
running (raised as an `ImportTaskError` by `_get_flow`), `begin_processing`
marks that task `failure` with the specific validation message, persists it
through the task repository, and returns without raising. -/
theorem validation_failure_marks_task_failed (env : Env) (tid : String)
    (st : St) (task : Task) (r : String)
    (hfind : st.repo.lookup tid = some task)
    (hid : task.task_id = tid)
    (hflow : getFlowResult env = some (Exc.importTaskError r)) :
    (begin_processing env tid st).fst = Except.ok () ∧
    (begin_processing env tid st).snd.repo.lookup tid =
      some (task.begin_processing.fail r) ∧
    (task.begin_processing.fail r).status = Status.failure ∧
    (task.begin_processing.fail r).message = r ∧
    Event.saveTask (task.begin_processing.fail r) ∈
      (begin_processing env tid st).snd.events := by
  simp [begin_processing, base_begin_processing, run_, St.saveTask, St.log,
    Task.begin_processing, Task.fail, List.lookup, hfind, hflow, hid]

/-- Witness for C2: a malformed source URI. -/
theorem validation_failure_marks_task_failed_witness :
    (begin_processing envBadUri "t1" st1).fst = Except.ok () ∧
    (begin_processing envBadUri "t1" st1).snd.repo.lookup "t1" =
      some (task1.begin_processing.fail "bad uri") ∧
    (task1.begin_processing.fail "bad uri").status = Status.failure ∧
    (task1.begin_processing.fail "bad uri").message = "bad uri" ∧
    Event.saveTask (task1.begin_processing.fail "bad uri") ∈
      (begin_processing envBadUri "t1" st1).snd.events :=
  validation_failure_marks_task_failed envBadUri "t1" st1 task1 "bad uri"
    rfl rfl rfl

/-- C3 counterexample: with the driver construction raising `RuntimeError`
(the stevedore failure mode for an unregistered task type), the resulting
`NotImplementedError` escapes `begin_processing` and the task does NOT end
in `failure`: it is left in `processing` with no failure message. -/
theorem driver_runtime_failure_cex :
    (begin_processing envDriverBoom "t1" st1).fst =
      Except.error Exc.notImplementedError ∧
    (begin_processing envDriverBoom "t1" st1).snd.repo.lookup "t1" =
      some task1.begin_processing ∧
    task1.begin_processing.status ≠ Status.failure := by
  refine ⟨rfl, rfl, by decide⟩

/-- C3 (amended): a generic runtime failure of driver construction is
normalized to a single `NotImplementedError` with no finer-grained cause,
and no image record is created (the flow never runs — the final state holds
only the `processing` save); however the task does not end in `failure`:
the `NotImplementedError` propagates out of `begin_processing`, leaving the
task in `processing` with no driver-resolution message. -/
theorem driver_runtime_failure_normalized (env : Env) (tid : String)
    (st : St) (task : Task) (u : String)
    (hfind : st.repo.lookup tid = some task)
    (hid : task.task_id = tid)
    (hunpack : env.unpackOutcome = none)
    (hvalidate : env.validateOutcome = Except.ok u)
    (hdriver : env.driverOutcome = some Exc.runtimeError) :
    begin_processing env tid st =
      (Except.error Exc.notImplementedError,
       st.saveTask task.begin_processing) ∧
    (st.saveTask task.begin_processing).repo.lookup tid =
      some task.begin_processing ∧
    task.begin_processing.status = Status.processing := by
  have hflow : getFlowResult env = some Exc.notImplementedError := by
    simp [getFlowResult, getFlowBody, hunpack, hvalidate, hdriver]
  refine ⟨?_, ?_, rfl⟩
  · simp [begin_processing, base_begin_processing, run_, St.saveTask, St.log,
      Task.begin_processing, List.lookup, hfind, hflow, hid]
  · simp [St.saveTask, Task.begin_processing, List.lookup, hid]

/-- Witness for C3 (amended). -/
theorem driver_runtime_failure_normalized_witness :
    begin_processing envDriverBoom "t1" st1 =
      (Except.error Exc.notImplementedError,
       st1.saveTask task1.begin_processing) ∧
    (st1.saveTask task1.begin_processing).repo.lookup "t1" =
      some task1.begin_processing ∧
    task1.begin_processing.status = Status.processing :=
  driver_runtime_failure_normalized envDriverBoom "t1" st1 task1
    "http://example.com/image" rfl rfl rfl rfl rfl

/-- C1 counterexample: an unexpected exception raised by the running flow
escapes `begin_processing` — the call is not failure-free at its own
boundary. -/
theorem begin_processing_raises_cex :
    (begin_processing envFlowBoom "t1" st1).fst =
      Except.error (Exc.genericError "boom") := rfl

/-- C1 (amended): `begin_processing` never lets a validation failure
(`ImportTaskError`) escape past its own boundary — those are always
absorbed into the persisted Task Record; any exception that does escape is
of some other category (the internal re-raise of flow errors, the driver
`NotImplementedError`, or a pool-construction failure is not confined to
the engine). -/
theorem begin_processing_escape_never_validation (env : Env) (tid : String)
    (st : St) (e : Exc)
    (h : (begin_processing env tid st).fst = Except.error e) :
    e.isImportTaskError = false := by
  unfold begin_processing at h
  rcases hb : base_begin_processing env tid st with ⟨res, stb⟩
  rw [hb] at h
  cases res with
  | ok u => simp at h
  | error eb =>
    cases eb
    case importTaskError msg =>
      dsimp only at h
      cases hl : (stb.log (Event.logError msg)).repo.lookup tid with
      | none =>
        rw [hl] at h
        simp only [Except.error.injEq] at h
        subst h
        rfl
      | some t =>
        rw [hl] at h
        simp at h
    all_goals
      dsimp only at h
      simp only [Except.error.injEq] at h
      subst h
      rfl

/-- Witness for C1 (amended): the escaping exception of the counterexample
run is not a validation failure. -/
theorem begin_processing_escape_never_validation_witness :
    (Exc.genericError "boom").isImportTaskError = false :=
  begin_processing_escape_never_validation envFlowBoom "t1" st1
    (Exc.genericError "boom") rfl

/-- Shared helper: when the flow is resolved and a pool is fetched but the
taskflow engine raises an exception that is not an `ImportTaskError`, the
exception propagates out of `begin_processing`, the task is persisted as
`failure` with the generic message, and the original detail appears only in
the log trace. -/
theorem engine_exception_outcome (env : Env) (tid : String) (st : St)
    (task : Task) (e : Exc) (po : Option Pool)
    (hfind : st.repo.lookup tid = some task)
    (hid : task.task_id = tid)
    (hflow : getFlowResult env = none)
    (hpool : fetchAnExecutor env = Except.ok po)
    (hrun : env.engineRunOutcome = some e)
    (hne : e.isImportTaskError = false) :
    (begin_processing env tid st).fst = Except.error e ∧
    (begin_processing env tid st).snd.repo.lookup tid =
      some (task.begin_processing.fail internalErrorMsg) ∧
    Event.saveTask (task.begin_processing.fail internalErrorMsg) ∈
      (begin_processing env tid st).snd.events ∧
    Event.logError (excDetail e) ∈
      (begin_processing env tid st).snd.events := by
  cases e
  case importTaskError m => simp [Exc.isImportTaskError] at hne
  all_goals
    cases po <;>
      simp [begin_processing, base_begin_processing, run_, hfind, hflow,
        hpool, hrun, St.saveTask, St.log, Task.begin_processing, Task.fail,
        List.lookup, hid, excDetail]

/-- C4: for every exception propagating out of the running flow other than
a validation failure, the executor marks the task `failure` with the
generic operator-facing message `"Task failed due to Internal Error"` and
persists it before the internal re-raise; the specific exception detail is
logged but never written into the persisted Task Record's message (the
persisted message is the constant, independent of the exception). -/
theorem flow_exception_generic_message (env : Env) (tid : String) (st : St)
    (task : Task) (e : Exc) (po : Option Pool)
    (hfind : st.repo.lookup tid = some task)
    (hid : task.task_id = tid)
    (hflow : getFlowResult env = none)
    (hpool : fetchAnExecutor env = Except.ok po)
    (hrun : env.engineRunOutcome = some e)
    (hne : e.isImportTaskError = false) :
    (begin_processing env tid st).fst = Except.error e ∧
    (begin_processing env tid st).snd.repo.lookup tid =
      some (task.begin_processing.fail internalErrorMsg) ∧
    (task.begin_processing.fail internalErrorMsg).status = Status.failure ∧
    (task.begin_processing.fail internalErrorMsg).message =
      internalErrorMsg ∧
    Event.saveTask (task.begin_processing.fail internalErrorMsg) ∈
      (begin_processing env tid st).snd.events ∧
    Event.logError (excDetail e) ∈
      (begin_processing env tid st).snd.events := by
  obtain ⟨h1, h2, h3, h4⟩ :=
    engine_exception_outcome env tid st task e po hfind hid hflow hpool
      hrun hne
  exact ⟨h1, h2, rfl, rfl, h3, h4⟩

/-- Witness for C4: a generic flow failure in serial mode. -/
theorem flow_exception_generic_message_witness :
    (begin_processing envFlowBoom "t1" st1).fst =
      Except.error (Exc.genericError "boom") ∧
    (begin_processing envFlowBoom "t1" st1).snd.repo.lookup "t1" =
      some (task1.begin_processing.fail internalErrorMsg) ∧
    (task1.begin_processing.fail internalErrorMsg).status =
      Status.failure ∧
    (task1.begin_processing.fail internalErrorMsg).message =
      internalErrorMsg ∧
    Event.saveTask (task1.begin_processing.fail internalErrorMsg) ∈
      (begin_processing envFlowBoom "t1" st1).snd.events ∧
    Event.logError (excDetail (Exc.genericError "boom")) ∈
      (begin_processing envFlowBoom "t1" st1).snd.events :=
  flow_exception_generic_message envFlowBoom "t1" st1 task1
    (Exc.genericError "boom") none rfl rfl rfl rfl rfl rfl

/-- C6: when authorization expires after a successful byte transfer (the
post-transfer reload raises the authorization failure), the import flow
deletes every storage location already written — taken from the original
in-memory record — exactly once each (the deletion events are exactly one
per distinct written location), completes this cleanup before re-raising
(the deletions are the final events of the flow trace), and re-raises the
authorization error, so that the task run ends with the task persisted as
`failure` and the authorization error surfaced to the engine. -/
theorem auth_expiry_cleanup_then_reraise (fenv : ImportEnv) (env : Env)
    (tid : String) (st : St) (task : Task) (po : Option Pool)
    (htrans : fenv.transferOutcome = none)
    (hauth : fenv.reloadOutcome = some Exc.notAuthenticated)
    (hnodup : fenv.locations.Nodup)
    (hfind : st.repo.lookup tid = some task)
    (hid : task.task_id = tid)
    (hflow : getFlowResult env = none)
    (hpool : fetchAnExecutor env = Except.ok po)
    (hrun : env.engineRunOutcome = some Exc.notAuthenticated) :
    (import_image fenv).fst = Except.error Exc.notAuthenticated ∧
    (import_image fenv).snd =
      [FlowEvent.createImage fenv.image_id,
       FlowEvent.saveImage fenv.image_id "saving",
       FlowEvent.transfer fenv.uri,
       FlowEvent.reloadImage fenv.image_id] ++
        fenv.locations.map (FlowEvent.deleteLocation fenv.image_id) ∧
    (fenv.locations.map (FlowEvent.deleteLocation fenv.image_id)).Nodup ∧
    (begin_processing env tid st).fst =
      Except.error Exc.notAuthenticated ∧
    (begin_processing env tid st).snd.repo.lookup tid =
      some (task.begin_processing.fail internalErrorMsg) ∧
    (task.begin_processing.fail internalErrorMsg).status =
      Status.failure := by
  obtain ⟨h1, h2, _, _⟩ :=
    engine_exception_outcome env tid st task Exc.notAuthenticated po hfind
      hid hflow hpool hrun rfl
  refine ⟨?_, ?_, ?_, h1, h2, rfl⟩
  · simp [import_image, htrans, hauth]
  · simp [import_image, htrans, hauth]
  · exact hnodup.map (fun a b hab => by
      simpa using congrArg (fun ev =>
        match ev with
        | FlowEvent.deleteLocation _ l => l
        | _ => a) hab)

/-- Witness for C6: one written location, stale authorization on reload. -/
theorem auth_expiry_cleanup_then_reraise_witness :
    (import_image fenvAuthExpired).fst =
      Except.error Exc.notAuthenticated ∧
    (import_image fenvAuthExpired).snd =
      [FlowEvent.createImage fenvAuthExpired.image_id,
       FlowEvent.saveImage fenvAuthExpired.image_id "saving",
       FlowEvent.transfer fenvAuthExpired.uri,
       FlowEvent.reloadImage fenvAuthExpired.image_id] ++
        fenvAuthExpired.locations.map
          (FlowEvent.deleteLocation fenvAuthExpired.image_id) ∧
    (fenvAuthExpired.locations.map
      (FlowEvent.deleteLocation fenvAuthExpired.image_id)).Nodup ∧
    (begin_processing envAuthBoom "t1" st1).fst =
      Except.error Exc.notAuthenticated ∧
    (begin_processing envAuthBoom "t1" st1).snd.repo.lookup "t1" =
      some (task1.begin_processing.fail internalErrorMsg) ∧
    (task1.begin_processing.fail internalErrorMsg).status =
      Status.failure :=
  auth_expiry_cleanup_then_reraise fenvAuthExpired envAuthBoom "t1" st1
    task1 none rfl rfl (by decide) rfl rfl rfl rfl rfl

/-- C7: every import run creates the provisional image record, transitions
it to the interim "saving" status, and saves it through the image
repository strictly before any bytes are transferred — the first three
events of every flow trace are the creation, the "saving" save, and only
then the transfer. -/
theorem saving_saved_before_transfer (fenv : ImportEnv) :
    (import_image fenv).snd.take 3 =
      [FlowEvent.createImage fenv.image_id,
       FlowEvent.saveImage fenv.image_id "saving",
       FlowEvent.transfer fenv.uri] := by
  unfold import_image
  cases htrans : fenv.transferOutcome with
  | some e => rfl
  | none =>
    cases hr : fenv.reloadOutcome with
    | none => rfl
    | some e => cases e <;> rfl

/-- C8: worker-pool acquisition follows the configured mode: in `serial`
mode no pool is constructed (the executor is `None` and the flow runs on
the calling thread); in `parallel` mode the cooperative (green-thread)
pool bounded by `max_workers` is attempted first, and when its construction
raises `RuntimeError` the executor falls back to an OS-thread pool bounded
by the same `max_workers`. -/
theorem worker_pool_mode_selection (env : Env) :
    (env.engine_mode = "serial" → fetchAnExecutor env = Except.ok none) ∧
    (env.engine_mode = "parallel" → env.greenPoolOutcome = none →
      fetchAnExecutor env = Except.ok (some (Pool.green env.max_workers))) ∧
    (env.engine_mode = "parallel" →
      env.greenPoolOutcome = some Exc.runtimeError →
      env.threadPoolOutcome = none →
      fetchAnExecutor env =
        Except.ok (some (Pool.thread env.max_workers))) := by
  refine ⟨fun hs => ?_, fun hp hg => ?_, fun hp hg ht => ?_⟩
  · have hmode : env.engine_mode ≠ "parallel" := by
      rw [hs]
      decide
    simp [fetchAnExecutor, hmode]
  · simp [fetchAnExecutor, hp, hg]
  · simp [fetchAnExecutor, hp, hg, ht]

/-- Witness for C8: the three pool-selection paths at concrete
configurations. -/
theorem worker_pool_mode_selection_witness :
    fetchAnExecutor envOkSerial = Except.ok none ∧
    fetchAnExecutor envParallel = Except.ok (some (Pool.green 10)) ∧
    fetchAnExecutor envParallelFallback =
      Except.ok (some (Pool.thread 10)) :=
  ⟨(worker_pool_mode_selection envOkSerial).1 rfl,
   (worker_pool_mode_selection envParallel).2.1 rfl rfl,
   (worker_pool_mode_selection envParallelFallback).2.2 rfl rfl rfl⟩

/-- C9: whenever a worker pool was acquired for a `begin_processing` run,
the pool is shut down on every exit path — the engine outcome is left
completely unconstrained here, so the shutdown event is in the trace for
flow success, flow failure, and every unexpected exception alike. -/
theorem pool_released_on_every_exit (env : Env) (tid : String) (st : St)
    (task : Task) (p : Pool)
    (hfind : st.repo.lookup tid = some task)
    (hid : task.task_id = tid)
    (hflow : getFlowResult env = none)
    (hpool : fetchAnExecutor env = Except.ok (some p)) :
    Event.poolAcquire p ∈ (begin_processing env tid st).snd.events ∧
    Event.poolShutdown ∈ (begin_processing env tid st).snd.events := by
  cases hrun : env.engineRunOutcome with
  | none =>
    simp [begin_processing, base_begin_processing, run_, hfind, hflow,
      hpool, hrun, St.saveTask, St.log, Task.begin_processing,
      List.lookup, hid]
  | some e =>
    cases e <;>
      simp [begin_processing, base_begin_processing, run_, hfind, hflow,
        hpool, hrun, St.saveTask, St.log, Task.begin_processing, Task.fail,
        List.lookup, hid, excDetail]

/-- Witness for C9: a successful parallel run acquires and releases the
green pool. -/
theorem pool_released_on_every_exit_witness :
    Event.poolAcquire (Pool.green 10) ∈
      (begin_processing envParallel "t1" st1).snd.events ∧
    Event.poolShutdown ∈
      (begin_processing envParallel "t1" st1).snd.events :=
  pool_released_on_every_exit envParallel "t1" st1 task1 (Pool.green 10)
    rfl rfl rfl rfl

/-- C10: in parallel mode, only a `RuntimeError` from the cooperative-pool
constructor triggers the fallback; any other constructor exception is not
caught by the executor: `_fetch_an_executor` re-raises it, it propagates
out of `begin_processing`, and the task is left in `processing` — it is
never marked `failure` (the final state holds only the `processing`
save). -/
theorem green_pool_non_runtime_error_propagates (env : Env) (tid : String)
    (st : St) (task : Task) (e : Exc)
    (hfind : st.repo.lookup tid = some task)
    (hid : task.task_id = tid)
    (hmode : env.engine_mode = "parallel")
    (hflow : getFlowResult env = none)
    (hgreen : env.greenPoolOutcome = some e)
    (hrt : e ≠ Exc.runtimeError)
    (hite : e.isImportTaskError = false) :
    fetchAnExecutor env = Except.error e ∧
    begin_processing env tid st =
      (Except.error e, st.saveTask task.begin_processing) ∧
    (st.saveTask task.begin_processing).repo.lookup tid =
      some task.begin_processing ∧
    task.begin_processing.status = Status.processing := by
  have hfetch : fetchAnExecutor env = Except.error e := by
    cases e
    case importTaskError m => simp [Exc.isImportTaskError] at hite
    case runtimeError => exact absurd rfl hrt
    all_goals simp [fetchAnExecutor, hmode, hgreen]
  refine ⟨hfetch, ?_, ?_, rfl⟩
  · cases e
    case importTaskError m => simp [Exc.isImportTaskError] at hite
    all_goals
      simp [begin_processing, base_begin_processing, run_, hfind, hflow,
        hfetch, St.saveTask, St.log, Task.begin_processing,
        List.lookup, hid]
  · simp [St.saveTask, Task.begin_processing, List.lookup, hid]

/-- Witness for C10: a non-`RuntimeError` pool-construction failure. -/
theorem green_pool_non_runtime_error_propagates_witness :
    fetchAnExecutor envParallelBadPool =
      Except.error (Exc.genericError "pool construction failed") ∧
    begin_processing envParallelBadPool "t1" st1 =
      (Except.error (Exc.genericError "pool construction failed"),
       st1.saveTask task1.begin_processing) ∧
    (st1.saveTask task1.begin_processing).repo.lookup "t1" =
      some task1.begin_processing ∧
    task1.begin_processing.status = Status.processing :=
  green_pool_non_runtime_error_propagates envParallelBadPool "t1" st1 task1
    (Exc.genericError "pool construction failed") rfl rfl rfl rfl rfl
    (by decide) rfl

end XMonitor
